import Mathlib

/-!
Verification of the Reddit-to-ComfyUI pipeline core against its design
specification.  The development shallowly embeds the two core components:

* the Parameter Analyzer (`script_analyzer.py`): declaration extraction,
  prompt-likelihood scoring, mapping derivation, mapping persistence and
  execution-argument construction;
* the Adaptive Execution Engine (`synthwave_gui.py`): pre-execution script
  validation, the invocation/result-classification/saving pipeline, the
  script-import flow and the batch loop.

Scripts and file contents are modelled as `List Char` / `String`; Python
`None`-able values as `Option`.  Prompt-likelihood scores are finite decimal
sums of tenths (0.4 + 0.5 + ... capped at 1.0), represented exactly in
fixed-point tenths as naturals: a score value `s : Nat` stands for the number
`s / 10`, so `0.4 ↦ 4`, the threshold `0.3 ↦ 3` and the cap `1.0 ↦ 10`; every
comparison performed by the source translates verbatim under this scaling.
-/

/- ## String utilities (Python substring / prefix semantics) -/

/-- Boolean prefix test on character lists. -/
def isPrefixB : List Char → List Char → Bool
  | [], _ => true
  | _ :: _, [] => false
  | a :: as, b :: bs => a = b && isPrefixB as bs

/-- If `token` is a prefix of `s`, the remainder of `s` after it. -/
def dropPrefixB (token s : List Char) : Option (List Char) :=
  if isPrefixB token s then some (s.drop token.length) else Option.none

/-- Python `needle in hay` substring test. -/
def strContainsL (hay needle : List Char) : Bool :=
  if isPrefixB needle hay then true
  else
    match hay with
    | [] => false
    | _ :: t => strContainsL t needle

/-- Python `sub in s` on strings. -/
def strContainsS (s sub : String) : Bool :=
  strContainsL s.toList sub.toList

/-- Python `str.lower`. -/
def lowerS (s : String) : String :=
  (s.toList.map Char.toLower).asString

/-- Python regex `\s` character class. -/
def isSpaceB (c : Char) : Bool :=
  c = ' ' || c = '\t' || c = '\n' || c = '\r' || c = '\x0b' || c = '\x0c'

/-- A single- or double-quote character (the regex class matching either). -/
def isQuoteB (c : Char) : Bool :=
  c = '"' || c = '\''

/- ## Data model of the Parameter Analyzer (`script_analyzer.py`) -/

/-- A Python runtime value as it occurs in this pipeline (argument defaults). -/
inductive PyVal where
  | none
  | str (s : String)
  | int (n : Int)
  | float (q : ℚ)
  | bool (b : Bool)
deriving DecidableEq

/-- `ArgumentInfo` dataclass: information about one declared script argument. -/
structure ArgumentInfo where
  name : String
  dest : String
  default : PyVal
  help_text : String
  arg_type : String
  score : Nat
deriving DecidableEq

/-- `PromptMapping` dataclass: mapping of prompt roles to argument names. -/
structure PromptMapping where
  main_prompt : Option String
  negative_prompt : Option String
  width : Option String
  height : Option String
  steps : Option String
  seed : Option String
deriving DecidableEq

/-- `PromptMapping()` with every field defaulted to `None`. -/
def emptyMapping : PromptMapping :=
  ⟨Option.none, Option.none, Option.none, Option.none, Option.none, Option.none⟩

/-- Type inference from the evaluated default (`_parse_full_argument_call`,
lines 146-151): `isinstance(default, int)` is tested first and in Python
`bool` is a subclass of `int`, so boolean defaults also yield `"int"`;
anything that is not an int or float keeps the initial `"str"`. -/
def infer_arg_type (d : PyVal) : String :=
  match d with
  | .int _ => "int"
  | .bool _ => "int"
  | .float _ => "float"
  | _ => "str"

/-- The name-based block of `_score_argument` (lines 174-182), threading the
accumulated score: +4 tenths for "text", +5 for "prompt", +3 for "positive",
+2 for "negative" in the lowercased dest. -/
def name_score_block (dest : String) (score : Nat) : Nat :=
  let s1 := if strContainsS (lowerS dest) "text" then score + 4 else score
  let s2 := if strContainsS (lowerS dest) "prompt" then s1 + 5 else s1
  let s3 := if strContainsS (lowerS dest) "positive" then s2 + 3 else s2
  if strContainsS (lowerS dest) "negative" then s3 + 2 else s3

/-- The help-text block of `_score_argument` (lines 184-194), guarded by the
truthiness of `help_text`: +3 tenths for "clip text encode", +4 for
"positive prompt", +3 for "negative prompt", +2 for "prompt". -/
def help_score_block (help_text : String) (score : Nat) : Nat :=
  if help_text = "" then score
  else
    let hl := lowerS help_text
    let h1 := if strContainsS hl "clip text encode" then score + 3 else score
    let h2 := if strContainsS hl "positive prompt" then h1 + 4 else h1
    let h3 := if strContainsS hl "negative prompt" then h2 + 3 else h2
    if strContainsS hl "prompt" then h3 + 2 else h3

/-- The default-value block of `_score_argument` (lines 196-201): +3 tenths
for a string default longer than 50 characters, else +1 for an empty one. -/
def default_score_block (default : PyVal) (score : Nat) : Nat :=
  match default with
  | .str v => if v.length > 50 then score + 3 else if v.length = 0 then score + 1 else score
  | _ => score

/-- `_score_argument`: additive prompt-likelihood heuristic over the three
blocks in source order, capped at 1.0.  Scores are in fixed-point tenths
(`0.4 ↦ 4`, ..., cap `1.0 ↦ 10`). -/
def score_argument (dest : String) (default : PyVal) (help_text : String) : Nat :=
  min (default_score_block default (help_score_block help_text (name_score_block dest 0))) 10

/- ## Declaration extraction (`_parse_arguments`, `_parse_full_argument_call`) -/

/-- The literal opening token searched for by `_parse_arguments`. -/
def addArgToken : List Char := "parser.add_argument(".toList

/-- The matching-parenthesis scan of `_parse_arguments` (lines 87-94): starting
just after the opening parenthesis with `paren_count = depth`, consume
characters, incrementing on `(` and decrementing on `)`, until the count
returns to zero.  Returns the number of characters consumed (the position `i`
relative to the opening parenthesis), or `none` when the input ends with the
count still positive. -/
def scanParen : List Char → Nat → Option Nat
  | [], _ => Option.none
  | c :: cs, depth =>
    let d := if c = '(' then depth + 1 else if c = ')' then depth - 1 else depth
    if d = 0 then some 1
    else
      match scanParen cs d with
      | some n => some (n + 1)
      | Option.none => Option.none

/-- The suffix of `s` that follows the first occurrence of `token`
(`re.search` for the literal opening token). -/
def afterToken (token : List Char) : List Char → Option (List Char)
  | [] => Option.none
  | c :: cs =>
    if isPrefixB token (c :: cs) then some ((c :: cs).drop token.length)
    else afterToken token cs

/-- Attempt, at the current position, the flag-name pattern of
`_parse_full_argument_call` line 111: the literal call token, then `\s*`, then
a quote, then one or more non-quote characters (captured), then a quote. -/
def match_flag_at (s : List Char) : Option String :=
  if isPrefixB addArgToken s then
    let r := (s.drop addArgToken.length).dropWhile isSpaceB
    match r with
    | [] => Option.none
    | q :: r' =>
      if isQuoteB q then
        let body := r'.takeWhile (fun c => !(isQuoteB c))
        match r'.drop body.length with
        | [] => Option.none
        | _ :: _ => if body.isEmpty then Option.none else some body.asString
      else Option.none
  else Option.none

/-- `re.search` of the flag-name pattern: first position where it matches. -/
def search_flag : List Char → Option String
  | [] => Option.none
  | s :: t =>
    match match_flag_at (s :: t) with
    | some x => some x
    | Option.none => search_flag t

/-- The shortest text before the first occurrence of a triple quote `qqq`
(the lazy `.*?` of the triple-quoted alternatives), or `none` when the triple
quote never occurs. -/
def upToTriple (q : Char) : List Char → Option (List Char)
  | [] => Option.none
  | c :: t =>
    if isPrefixB [q, q, q] (c :: t) then some []
    else (upToTriple q t).map (c :: ·)

/-- One triple-quoted alternative `qqq.*?qqq` of the default-value pattern;
the group includes the delimiters. -/
def tripleMatch (q : Char) (r : List Char) : Option (List Char) :=
  match dropPrefixB [q, q, q] r with
  | Option.none => Option.none
  | some rest =>
    match upToTriple q rest with
    | Option.none => Option.none
    | some content => some ([q, q, q] ++ content ++ [q, q, q])

/-- The alternation of the default-value pattern (line 124), alternatives in
source order: `['"][^'"]*['"]`, then `'''.*?'''`, then `""".*?"""`.  The first
alternative is greedy over non-quote characters and must then see a closing
quote; since every skipped character is a non-quote, no backtracking can
rescue a failed close. -/
def match_str_alt (r : List Char) : Option (List Char) :=
  let alt1 :=
    match r with
    | q :: r' =>
      if isQuoteB q then
        let body := r'.takeWhile (fun c => !(isQuoteB c))
        match r'.drop body.length with
        | q2 :: _ => some (q :: (body ++ [q2]))
        | [] => Option.none
      else Option.none
    | [] => Option.none
  match alt1 with
  | some v => some v
  | Option.none =>
    match tripleMatch '\'' r with
    | some v => some v
    | Option.none => tripleMatch '"' r

/-- Attempt, at the current position, the default-value pattern
`default\s*=\s*(...)` with the alternation above. -/
def match_default_at (s : List Char) : Option (List Char) :=
  match dropPrefixB "default".toList s with
  | Option.none => Option.none
  | some r1 =>
    match r1.dropWhile isSpaceB with
    | '=' :: r3 => match_str_alt (r3.dropWhile isSpaceB)
    | _ => Option.none

/-- `re.search` of the default-value pattern: first matching position. -/
def search_default : List Char → Option (List Char)
  | [] => Option.none
  | s :: t =>
    match match_default_at (s :: t) with
    | some x => some x
    | Option.none => search_default t

/-- Attempt, at the current position, the help-text pattern
`help\s*=\s*["']([^"']*)["']` (line 141); the captured group may be empty. -/
def match_help_at (s : List Char) : Option String :=
  match dropPrefixB "help".toList s with
  | Option.none => Option.none
  | some r1 =>
    match r1.dropWhile isSpaceB with
    | '=' :: r3 =>
      match r3.dropWhile isSpaceB with
      | [] => Option.none
      | q :: r' =>
        if isQuoteB q then
          let body := r'.takeWhile (fun c => !(isQuoteB c))
          match r'.drop body.length with
          | [] => Option.none
          | _ :: _ => some body.asString
        else Option.none
    | _ => Option.none

/-- `re.search` of the help-text pattern: first matching position. -/
def search_help : List Char → Option String
  | [] => Option.none
  | s :: t =>
    match match_help_at (s :: t) with
    | some x => some x
    | Option.none => search_help t

/-- Python string-literal escape processing: `\` followed by a recognized
escape character produces the escaped character; an unrecognized escape keeps
the backslash; a trailing lone backslash is a syntax error. -/
def unescapeChars : List Char → Option (List Char)
  | [] => some []
  | '\\' :: [] => Option.none
  | '\\' :: c :: rest =>
    (unescapeChars rest).map (fun tail =>
      (if c = 'n' then ['\n']
       else if c = 't' then ['\t']
       else if c = 'r' then ['\r']
       else if c = '\\' then ['\\']
       else if c = '\'' then ['\'']
       else if c = '"' then ['"']
       else if c = '0' then ['\x00']
       else ['\\', c]) ++ tail)
  | c :: rest => (unescapeChars rest).map (c :: ·)

/-- Models `ast.literal_eval` as applied by `_parse_full_argument_call`: the
matched default text is always quote-delimited, so only Python string
literals can evaluate.  A triple-quoted literal may contain raw newlines; a
single-quoted literal must not contain a raw newline or its own delimiter,
and its delimiters must agree.  Anything else is rejected (the `except`
branch of the source). -/
def literal_eval_str (s : List Char) : Option (List Char) :=
  if isPrefixB "'''".toList s ∧ s.length ≥ 6 ∧ isPrefixB "'''".toList s.reverse then
    unescapeChars ((s.drop 3).dropLast.dropLast.dropLast)
  else if isPrefixB "\"\"\"".toList s ∧ s.length ≥ 6 ∧ isPrefixB "\"\"\"".toList s.reverse then
    unescapeChars ((s.drop 3).dropLast.dropLast.dropLast)
  else
    match s with
    | q :: rest =>
      if isQuoteB q ∧ rest ≠ [] ∧ rest.getLast? = some q
          ∧ !(rest.dropLast.contains q) ∧ !(rest.dropLast.contains '\n') then
        unescapeChars rest.dropLast
      else Option.none
    | [] => Option.none

/-- The evaluated default: `ast.literal_eval` when it accepts the text,
otherwise the manual quote stripping of lines 133-138 (triple quotes `[3:-3]`,
single quotes `[1:-1]`, else the raw text), without escape processing. -/
def evalDefaultStr (dstr : List Char) : PyVal :=
  match literal_eval_str dstr with
  | some v => PyVal.str v.asString
  | Option.none =>
    if isPrefixB "\"\"\"".toList dstr ∨ isPrefixB "'''".toList dstr then
      PyVal.str ((dstr.drop 3).dropLast.dropLast.dropLast).asString
    else if isPrefixB ['"'] dstr ∨ isPrefixB ['\''] dstr then
      PyVal.str (dstr.drop 1).dropLast.asString
    else
      PyVal.str dstr.asString

/-- `_parse_full_argument_call`: parse one complete `add_argument` call text
into an `ArgumentInfo` (flag name, dest, evaluated default, help text,
inferred type, prompt score), or `none` when no flag name matches. -/
def parse_full_argument_call (full_call : List Char) : Option ArgumentInfo :=
  match search_flag full_call with
  | Option.none => Option.none
  | some nm =>
    let dest := (nm.toList.dropWhile (· = '-')).asString
    let dflt : PyVal :=
      match search_default full_call with
      | Option.none => PyVal.none
      | some dstr => evalDefaultStr dstr
    let help_text : String := (search_help full_call).getD ""
    let arg_type := infer_arg_type dflt
    some ⟨nm, dest, dflt, help_text, arg_type, score_argument dest dflt help_text⟩

/-- Loop body of `_parse_arguments`, recursing on a fuel bound: locate the
next literal `parser.add_argument(` occurrence, isolate the full call text by
the matching-parenthesis scan, parse it, and continue after the isolated
call.  An occurrence whose parentheses never re-balance consumes the rest of
the input (the source advances `pos` to the end), ending the loop. -/
def parse_arguments_aux : Nat → List Char → List ArgumentInfo
  | 0, _ => []
  | fuel + 1, content =>
    match afterToken addArgToken content with
    | Option.none => []
    | some rest =>
      match scanParen rest 1 with
      | Option.none => []
      | some consumed =>
        let fullCall := addArgToken ++ rest.take consumed
        let tailArgs := parse_arguments_aux fuel (rest.drop consumed)
        match parse_full_argument_call fullCall with
        | some a => a :: tailArgs
        | Option.none => tailArgs

/-- `_parse_arguments` (lines 67-105).  The source loop terminates because
each iteration advances `pos` past the 20-character opening token, so the
content length bounds the number of iterations and is a sufficient fuel. -/
def parse_arguments (content : List Char) : List ArgumentInfo :=
  parse_arguments_aux content.length content

/- ## Mapping derivation (`_suggest_prompt_mapping`) -/

/-- Candidate filter: arguments whose (lowercased) dest contains `"text"` or
`"prompt"`. -/
def isPromptArg (a : ArgumentInfo) : Bool :=
  strContainsS (lowerS a.dest) "text" || strContainsS (lowerS a.dest) "prompt"

/-- Insert into a descending-by-score list, after any element of equal or
larger score (this reproduces the stable descending order of Python
`list.sort(key=score, reverse=True)` when applied by `sortByScoreDesc`). -/
def insertDesc (a : ArgumentInfo) : List ArgumentInfo → List ArgumentInfo
  | [] => [a]
  | b :: bs => if a.score ≥ b.score then a :: b :: bs else b :: insertDesc a bs

/-- Stable descending sort by `score` (`prompt_args.sort(key=..., reverse=True)`):
elements of equal score keep their original relative order. -/
def sortByScoreDesc : List ArgumentInfo → List ArgumentInfo
  | [] => []
  | a :: as => insertDesc a (sortByScoreDesc as)

/-- First-pass test assigning `main_prompt` (explicit name). -/
def explicitMainCond (a : ArgumentInfo) : Bool :=
  strContainsS (lowerS a.dest) "main_prompt" || strContainsS (lowerS a.dest) "positive_prompt"

/-- First-pass test assigning `negative_prompt` (explicit name, only reached
when the main-prompt test failed: `elif`). -/
def explicitNegCond (a : ArgumentInfo) : Bool :=
  strContainsS (lowerS a.dest) "negative_prompt" || strContainsS (lowerS a.dest) "neg_prompt"

/-- One iteration of the first pass of `_suggest_prompt_mapping` (lines
215-219): an explicit main-prompt name overwrites `main_prompt`, otherwise an
explicit negative-prompt name overwrites `negative_prompt`. -/
def explicitStep (m : PromptMapping) (a : ArgumentInfo) : PromptMapping :=
  if explicitMainCond a then { m with main_prompt := some a.dest }
  else if explicitNegCond a then { m with negative_prompt := some a.dest }
  else m

/-- First pass of `_suggest_prompt_mapping`: the loop over all candidates. -/
def explicitPass (l : List ArgumentInfo) (m : PromptMapping) : PromptMapping :=
  l.foldl explicitStep m

/-- Second-pass test (lines 224-229): score above 0.3 (3 tenths) and a
string default longer than 20 characters. -/
def scorePassCond (a : ArgumentInfo) : Bool :=
  decide (a.score > 3) &&
    (match a.default with
     | .str v => decide (v.length > 20)
     | _ => false)

/-- Third-pass test (lines 234-240), relative to the chosen main prompt:
a different dest with `"negative"` in its name, or an empty string default,
or `"negative"` in its help text. -/
def negPassCond (mainP : Option String) (a : ArgumentInfo) : Bool :=
  decide (some a.dest ≠ mainP) &&
    (strContainsS (lowerS a.dest) "negative" ||
     (match a.default with | .str v => decide (v.length = 0) | _ => false) ||
     strContainsS (lowerS a.help_text) "negative")

/-- Numeric-argument test for width/height (int or float). -/
def numTypeCond (a : ArgumentInfo) : Bool :=
  a.arg_type = "int" || a.arg_type = "float"

/-- One iteration of the final loop of `_suggest_prompt_mapping` (lines
243-251): an `if/elif` chain assigning width/height/steps/seed; width and
height accept int or float types, steps and seed only int. -/
def numericStep (m : PromptMapping) (a : ArgumentInfo) : PromptMapping :=
  if strContainsS (lowerS a.dest) "width" && numTypeCond a then
    { m with width := some a.dest }
  else if strContainsS (lowerS a.dest) "height" && numTypeCond a then
    { m with height := some a.dest }
  else if strContainsS (lowerS a.dest) "steps" && (a.arg_type = "int") then
    { m with steps := some a.dest }
  else if strContainsS (lowerS a.dest) "seed" && (a.arg_type = "int") then
    { m with seed := some a.dest }
  else m

/-- Final loop of `_suggest_prompt_mapping`: the loop over all arguments. -/
def numericPass (l : List ArgumentInfo) (m : PromptMapping) : PromptMapping :=
  l.foldl numericStep m

/-- Second pass of `_suggest_prompt_mapping` (lines 222-229): when no main
prompt is set yet and candidates exist, pick the first (hence
highest-scoring) candidate passing the score test. -/
def scorePass (promptArgs : List ArgumentInfo) (m : PromptMapping) : PromptMapping :=
  if m.main_prompt = Option.none ∧ promptArgs ≠ [] then
    match promptArgs.find? scorePassCond with
    | some a => { m with main_prompt := some a.dest }
    | Option.none => m
  else m

/-- Third pass of `_suggest_prompt_mapping` (lines 232-240): when no negative
prompt is set yet and candidates exist, pick the first candidate passing the
negative test relative to the chosen main prompt. -/
def negPass (promptArgs : List ArgumentInfo) (m : PromptMapping) : PromptMapping :=
  if m.negative_prompt = Option.none ∧ promptArgs ≠ [] then
    match promptArgs.find? (negPassCond m.main_prompt) with
    | some a => { m with negative_prompt := some a.dest }
    | Option.none => m
  else m

/-- `_suggest_prompt_mapping`: filter prompt candidates, sort them by
descending score (stably), run the explicit-name pass, then the score pass
for a still-unset main prompt, then the negative pass for a still-unset
negative prompt (skipping the chosen main prompt), and finally the numeric
pass over all arguments. -/
def suggest_prompt_mapping (arguments : List ArgumentInfo) : PromptMapping :=
  let promptArgs := sortByScoreDesc (arguments.filter isPromptArg)
  numericPass arguments
    (negPass promptArgs (scorePass promptArgs (explicitPass promptArgs emptyMapping)))

/-- `analyze_script` on already-read source text: parse the declarations and
derive the suggested mapping (the file read and its exception handling are
outside the model). -/
def analyze_content (content : String) : List ArgumentInfo × PromptMapping :=
  let args := parse_arguments content.toList
  (args, suggest_prompt_mapping args)

/- ## Mapping persistence (`save_mapping`, `load_mapping`, `get_execution_args`) -/

/-- The flat six-key JSON object written by `save_mapping` (absent roles are
written as `null` and read back by `dict.get` as `None`). -/
structure MappingFileData where
  main_prompt : Option String
  negative_prompt : Option String
  width : Option String
  height : Option String
  steps : Option String
  seed : Option String
deriving DecidableEq

/-- A per-script config file: either a well-formed mapping record or content
that `json.load`/field access rejects (the `except` branch of `load_mapping`). -/
inductive ConfigFile where
  | valid (d : MappingFileData)
  | malformed
deriving DecidableEq

/-- The `script_configs` directory: at most one file per script base name. -/
def ConfigStore := String → Option ConfigFile

/-- `save_mapping`: write the six fields of the mapping as the per-script
config file. -/
def save_mapping (store : ConfigStore) (script_name : String) (m : PromptMapping) :
    ConfigStore :=
  fun k =>
    if k = script_name then
      some (.valid ⟨m.main_prompt, m.negative_prompt, m.width, m.height, m.steps, m.seed⟩)
    else store k

/-- `load_mapping`: `None` when the file does not exist; `None` (after a
logged warning) when its content is malformed; otherwise the six fields read
back into a `PromptMapping`. -/
def load_mapping (store : ConfigStore) (script_name : String) : Option PromptMapping :=
  match store script_name with
  | Option.none => Option.none
  | some .malformed => Option.none
  | some (.valid d) =>
    some ⟨d.main_prompt, d.negative_prompt, d.width, d.height, d.steps, d.seed⟩

/-- Python dict assignment `d[key] = v`: replace in place when the key exists
(keeping its position), else append. -/
def dictInsert (key : String) (v : PyVal) (d : List (String × PyVal)) :
    List (String × PyVal) :=
  if (d.map Prod.fst).contains key then
    d.map (fun p => if p.1 = key then (key, v) else p)
  else d ++ [(key, v)]

/-- `get_execution_args`: when no mapping loads, the hard-coded fallback
bundle `text4`/`text5` plus the keyword arguments verbatim; otherwise the
prompt under the mapped main keyword (only if one is mapped), the negative
prompt under its mapped keyword (only if one is mapped), and each keyword
argument under its mapped name for width/height/steps/seed, passed through
verbatim otherwise.  Keyword arguments are an insertion-ordered dict,
modelled as an association list built with `dictInsert`. -/
def get_execution_args (store : ConfigStore) (script_name : String)
    (prompt_text : String) (negative_prompt : String)
    (kwargs : List (String × PyVal)) : List (String × PyVal) :=
  match load_mapping store script_name with
  | Option.none =>
    kwargs.foldl (fun d p => dictInsert p.1 p.2 d)
      [("text4", PyVal.str prompt_text), ("text5", PyVal.str negative_prompt)]
  | some mapping =>
    let args : List (String × PyVal) := []
    let args :=
      match mapping.main_prompt with
      | some k => dictInsert k (PyVal.str prompt_text) args
      | Option.none => args
    let args :=
      match mapping.negative_prompt with
      | some k => dictInsert k (PyVal.str negative_prompt) args
      | Option.none => args
    kwargs.foldl
      (fun d p =>
        if p.1 = "width" ∧ mapping.width.isSome then
          dictInsert (mapping.width.getD "") p.2 d
        else if p.1 = "height" ∧ mapping.height.isSome then
          dictInsert (mapping.height.getD "") p.2 d
        else if p.1 = "steps" ∧ mapping.steps.isSome then
          dictInsert (mapping.steps.getD "") p.2 d
        else if p.1 = "seed" ∧ mapping.seed.isSome then
          dictInsert (mapping.seed.getD "") p.2 d
        else dictInsert p.1 p.2 d)
      args

/- ## Pre-execution validation (`validate_comfyui_script`) -/

/-- A blocking validation issue (the source formats these into the
`"; "`-joined failure message). -/
inductive BlockingIssue where
  | missingMainFunction
  | noSaveImageNode
  | missingReturnDict
  | noComfyuiPatterns
deriving DecidableEq

/-- The three known auto-fixable SaveAsScript gaps (module-level names used
but never initialized), reported as warnings, not errors. -/
inductive AutoFixGap where
  | hasManager
  | customNodesImported
  | customPathAdded
deriving DecidableEq

/-- The result of `validate_comfyui_script` on readable source text: the
compatibility boolean, the ordered blocking issues (empty when compatible)
and the ordered auto-fixable gaps (reported inside the message as warnings).
The source returns `(bool, message)`; the message text is the join of the
issue descriptions, abstracted here to the lists themselves. -/
structure ValidationResult where
  isCompatible : Bool
  blockingIssues : List BlockingIssue
  autoFixable : List AutoFixGap
deriving DecidableEq

/-- `validate_comfyui_script` (lines 514-576) on the script source text:
structural-marker checks by raw substring search, the `if/else` assembly of
the blocking-issue list, and detection of the three use-without-init
SaveAsScript bugs as auto-fixable warnings. -/
def validate_comfyui_script (content : String) : ValidationResult :=
  let has_main_function := strContainsS content "def main("
  let has_saveimage :=
    strContainsS content "SaveImage" || strContainsS (lowerS content) "saveimage"
  let has_return_dict := strContainsS content "return dict("
  let has_comfyui_patterns :=
    strContainsS (lowerS content) "comfyui" || strContainsS (lowerS content) "workflow" ||
    strContainsS (lowerS content) "queue_prompt" ||
    strContainsS (lowerS content) "get_value_at_index"
  let has_manager_usage := strContainsS content "if has_manager:"
  let has_manager_init :=
    strContainsS content "has_manager = False" || strContainsS content "has_manager = True"
  let custom_nodes_usage := strContainsS content "_custom_nodes_imported"
  let custom_nodes_init :=
    strContainsS content "_custom_nodes_imported = False" ||
    strContainsS content "_custom_nodes_imported = True"
  let custom_path_usage := strContainsS content "_custom_path_added"
  let custom_path_init :=
    strContainsS content "_custom_path_added = False" ||
    strContainsS content "_custom_path_added = True"
  let issues :=
    (if !has_main_function then [BlockingIssue.missingMainFunction] else []) ++
    (if !has_saveimage then [BlockingIssue.noSaveImageNode] else []) ++
    (if !has_return_dict then [BlockingIssue.missingReturnDict] else []) ++
    (if !has_comfyui_patterns then [BlockingIssue.noComfyuiPatterns] else [])
  let auto_fixable :=
    (if has_manager_usage && !has_manager_init then [AutoFixGap.hasManager] else []) ++
    (if custom_nodes_usage && !custom_nodes_init then [AutoFixGap.customNodesImported] else []) ++
    (if custom_path_usage && !custom_path_init then [AutoFixGap.customPathAdded] else [])
  ⟨issues.isEmpty, issues, auto_fixable⟩

/- ## Adaptive execution (`execute_comfyui_script`) -/

/-- The value returned by the target script entry point, as the result
classifier distinguishes it: a dict with or without an `images` key (the
image collection abstracted to its elements), or any non-dict value. -/
inductive PyResult where
  | nonDict
  | dict (images : Option (List Unit))
deriving DecidableEq

/-- Exception classes caught around the entry-point call (lines 1841-1853). -/
inductive ExcKind where
  | attrError
  | typeError
  | otherError
deriving DecidableEq

/-- Behavior of the native save strategy (ComfyUI `SaveImage`, lines
1685-1738): the integration point may be unreachable (no probed installation
path exists, or the import raises `ImportError`), the save call may raise a
non-`ImportError` exception, or it saves and reports file paths. -/
inductive NativeSave where
  | unavailable
  | raises
  | saves (files : List String)
deriving DecidableEq

/-- Environment of one invocation attempt: everything the surrounding process
determines.  `loadOk` abstracts module-spec creation and top-level module
execution (lines 1628-1641); `hasMain` is the `hasattr(module, 'main')` check;
`mainResult` is the entry-point call outcome; `fallbackSave` is the direct
tensor-to-file strategy, which either writes the listed files or raises. -/
structure ExecEnv where
  scriptExists : Bool
  content : String
  loadOk : Bool
  hasMain : Bool
  mainResult : Except ExcKind PyResult
  nativeSave : NativeSave
  fallbackSave : Except Unit (List String)

/-- Normalized status of an invocation: the source returns `True` after any
run in which generation succeeded (with or without confirmed artifacts) and
`False` otherwise; the spec names these `Succeeded`,
`SucceededNoArtifacts` and `Failed`. -/
inductive ExecStatus where
  | succeeded
  | succeededNoArtifacts
  | failed
deriving DecidableEq

/-- Outcome of one invocation: status, artifact paths written, and whether
control reached the entry-point call (`module.main(**execution_args)`). -/
structure ExecOutcome where
  status : ExecStatus
  artifactPaths : List String
  invokedMain : Bool
deriving DecidableEq

/-- `execute_comfyui_script` (lines 1557-1861): existence check, validation
gate (a failed validation aborts with `Failed` before anything is loaded),
module load, auto-fix patching (always succeeds; not observable here),
`main` lookup, entry-point call with its exception classification, result
classification, and the cascading save strategies.  Prompt-content reading
and execution-argument construction (steps 2-3) only shape the keyword
bundle and cannot change the outcome classification, so they are not part of
this environment. -/
def execute_comfyui_script (env : ExecEnv) : ExecOutcome :=
  if !env.scriptExists then ⟨.failed, [], false⟩
  else if !(validate_comfyui_script env.content).isCompatible then ⟨.failed, [], false⟩
  else if !env.loadOk then ⟨.failed, [], false⟩
  else if !env.hasMain then ⟨.failed, [], false⟩
  else
    match env.mainResult with
    | .error _ => ⟨.failed, [], true⟩
    | .ok .nonDict => ⟨.failed, [], true⟩
    | .ok (.dict Option.none) => ⟨.succeededNoArtifacts, [], true⟩
    | .ok (.dict (some _)) =>
      match env.nativeSave with
      | .saves files => ⟨.succeeded, files, true⟩
      | .raises => ⟨.succeededNoArtifacts, [], true⟩
      | .unavailable =>
        match env.fallbackSave with
        | .ok files => ⟨.succeeded, files, true⟩
        | .error _ => ⟨.succeededNoArtifacts, [], true⟩

/- ## Script import flow (`import_script`, lines 2502-2532) -/

/-- Outcome of the import flow up to the copy step. -/
inductive ImportOutcome where
  | noFileSelected
  | sourceMissing
  | cancelled
  | imported
deriving DecidableEq

/-- `import_script`: empty selection and missing source abort with an error
dialog; a script failing validation surfaces the blocking message in a
yes/no confirmation dialog and is imported only when the caller confirms;
a validating script is imported directly. -/
def import_script (fileSelected : Bool) (sourceExists : Bool) (content : String)
    (confirmProceed : Bool) : ImportOutcome :=
  if !fileSelected then .noFileSelected
  else if !sourceExists then .sourceMissing
  else if (validate_comfyui_script content).isCompatible then .imported
  else if confirmProceed then .imported
  else .cancelled

/- ## Batch loop (`run_comfyui_execution`, `stop_comfyui_execution`) -/

/-- One queued prompt record (`generated_prompts` entry). -/
structure PromptItem where
  title : String
deriving DecidableEq

/-- The GUI state touched by the stop control and read by the batch loop. -/
structure GuiState where
  generatedPrompts : List PromptItem
  startBtnEnabled : Bool
  stopBtnEnabled : Bool
  statusLabel : String
deriving DecidableEq

/-- `stop_comfyui_execution` (lines 1508-1514): re-enable the start button,
disable the stop button, set the status label.  No other state is written;
in particular no flag consulted by the batch loop. -/
def stop_comfyui_execution (st : GuiState) : GuiState :=
  { st with
    startBtnEnabled := true
    stopBtnEnabled := false
    statusLabel := "Status: Stopped" }

/-- Messages the worker posts to the thread-safe queue. -/
inductive QueueMsg where
  | progress (current total : Nat) (title : String)
  | errorMsg (index : Nat)
  | complete (totalProcessed : Nat)
deriving DecidableEq

/-- `run_comfyui_execution` (lines 1516-1555): iterate over every queued
prompt, posting a progress message before each invocation, then invoking and
posting an error message when the invocation returns failure or raises, and
finally posting the completion message.  `outcome i` abstracts the invocation
of item `i` (`.ok b` = returned `b`, `.error ()` = raised). -/
def run_comfyui_execution (st : GuiState) (outcome : Nat → Except Unit Bool) :
    List QueueMsg :=
  let total := st.generatedPrompts.length
  (st.generatedPrompts.enum.map
    (fun p =>
      [QueueMsg.progress (p.1 + 1) total p.2.title] ++
      (match outcome p.1 with
       | .ok true => []
       | .ok false => [QueueMsg.errorMsg (p.1 + 1)]
       | .error _ => [QueueMsg.errorMsg (p.1 + 1)]))).flatten ++
  [QueueMsg.complete total]

/-- Number of invocations the batch loop starts (progress messages posted). -/
def invocationsStarted (msgs : List QueueMsg) : Nat :=
  (msgs.filter (fun m => match m with | .progress _ _ _ => true | _ => false)).length

/- ## Theorems -/

/-- Claim C8: for every `PromptMapping` and script base name, `saveMapping`
followed by `loadMapping` for the same name returns a mapping equal to the
one saved in all six fields, including absent ones. -/
theorem c8_save_load_roundtrip (store : ConfigStore) (script_name : String)
    (m : PromptMapping) :
    load_mapping (save_mapping store script_name m) script_name = some m := by
  simp [load_mapping, save_mapping]

/-- A script source text that passes every structural-marker check of
`validate_comfyui_script`. -/
def compatibleContent : String :=
  "def main( SaveImage return dict( comfyui"

/-- Claim C1: whenever the entry-point call returns a structured record (a
dict), the outcome is never `Failed`: a record without an image collection
yields `SucceededNoArtifacts` with zero files written; a record with an
image collection whose every save strategy raises is downgraded at most to
`SucceededNoArtifacts`; and a `Failed` outcome after a completed invocation
only arises from a non-dict return value or an exception from the entry
point. -/
theorem c1_dict_result_never_failed (env : ExecEnv)
    (h1 : env.scriptExists = true)
    (h2 : (validate_comfyui_script env.content).isCompatible = true)
    (h3 : env.loadOk = true) (h4 : env.hasMain = true) :
    (∀ imgs, env.mainResult = .ok (.dict imgs) →
      (execute_comfyui_script env).status ≠ .failed) ∧
    (env.mainResult = .ok (.dict Option.none) →
      execute_comfyui_script env = ⟨.succeededNoArtifacts, [], true⟩) ∧
    (∀ imgs, env.mainResult = .ok (.dict (some imgs)) →
      (env.nativeSave = .raises ∨
        (env.nativeSave = .unavailable ∧ env.fallbackSave = .error ())) →
      (execute_comfyui_script env).status = .succeededNoArtifacts ∧
      (execute_comfyui_script env).artifactPaths = []) ∧
    ((execute_comfyui_script env).status = .failed →
      env.mainResult = .ok .nonDict ∨ ∃ e, env.mainResult = .error e) := by
  refine ⟨?_, ?_, ?_, ?_⟩
  · intro imgs hres
    simp only [execute_comfyui_script, h1, h2, h3, h4, hres, Bool.not_true,
      Bool.false_eq_true, if_false]
    cases imgs with
    | none => simp
    | some l =>
      cases hn : env.nativeSave with
      | saves files => simp
      | raises => simp
      | unavailable =>
        cases hf : env.fallbackSave with
        | ok files => simp
        | error e => simp
  · intro hres
    simp [execute_comfyui_script, h1, h2, h3, h4, hres]
  · intro imgs hres hsave
    rcases hsave with hn | ⟨hn, hf⟩
    · simp [execute_comfyui_script, h1, h2, h3, h4, hres, hn]
    · simp [execute_comfyui_script, h1, h2, h3, h4, hres, hn, hf]
  · intro hfail
    rcases hres : env.mainResult with e | r
    · exact Or.inr ⟨e, rfl⟩
    · cases r with
      | nonDict => exact Or.inl rfl
      | dict imgs =>
        exfalso
        revert hfail
        simp only [execute_comfyui_script, h1, h2, h3, h4, hres, Bool.not_true,
          Bool.false_eq_true, if_false]
        cases imgs with
        | none => simp
        | some l =>
          cases env.nativeSave with
          | saves files => simp
          | raises => simp
          | unavailable =>
            cases env.fallbackSave with
            | ok files => simp
            | error e => simp

/-- Witness for C1 at a concrete environment: compatible script, entry point
returning a dict without an image collection. -/
theorem c1_witness :
    execute_comfyui_script
        ⟨true, compatibleContent, true, true, .ok (.dict Option.none),
          .unavailable, .error ()⟩ =
      ⟨.succeededNoArtifacts, [], true⟩ :=
  (c1_dict_result_never_failed
      ⟨true, compatibleContent, true, true, .ok (.dict Option.none),
        .unavailable, .error ()⟩
      rfl (by decide) rfl rfl).2.1 rfl

/-- An environment whose script exists but fails validation (empty source),
while everything downstream would succeed: the module loads, `main` exists
and returns a dict with images, and the native save strategy works. -/
def blockedEnv : ExecEnv :=
  ⟨true, "", true, true, .ok (.dict (some [()])), .saves ["out_00001.png"], .ok []⟩

/-- Counterexample to claim C2 as stated: pre-execution validation is not
advisory.  At `blockedEnv` validation finds blocking issues and the
invocation is aborted with `Failed` without ever reaching the entry point —
there is no yes/no decision point and no way for the caller to make
execution proceed, even though the script would have run successfully. -/
theorem c2_counterexample :
    (validate_comfyui_script blockedEnv.content).isCompatible = false ∧
    execute_comfyui_script blockedEnv = ⟨.failed, [], false⟩ := by
  decide

/-- Claim C2 (amended): a blocking pre-execution validation finding
unconditionally aborts the invocation with `Failed` before the entry point
is invoked; the yes/no proceed-anyway decision point exists only in the
script-import flow, where a script with blocking findings is imported
exactly when the caller confirms. -/
theorem c2_validation_enforced_import_advisory :
    (∀ env : ExecEnv, (validate_comfyui_script env.content).isCompatible = false →
      (execute_comfyui_script env).status = .failed ∧
      (execute_comfyui_script env).invokedMain = false) ∧
    (∀ (content : String) (confirm : Bool),
      (validate_comfyui_script content).isCompatible = false →
      (import_script true true content confirm = .imported ↔ confirm = true)) := by
  constructor
  · intro env hv
    cases hs : env.scriptExists with
    | false => simp [execute_comfyui_script, hs]
    | true => simp [execute_comfyui_script, hs, hv]
  · intro content confirm hv
    cases confirm <;> simp [import_script, hv]

/-- Witness for C2 (amended) at the concrete blocked environment and at
the script-import flow with a confirming caller. -/
theorem c2_witness :
    ((execute_comfyui_script blockedEnv).status = .failed ∧
      (execute_comfyui_script blockedEnv).invokedMain = false) ∧
    (import_script true true "" true = .imported ↔ true = true) :=
  ⟨c2_validation_enforced_import_advisory.1 blockedEnv (by decide),
   c2_validation_enforced_import_advisory.2 "" true (by decide)⟩

/-- Auxiliary count: one progress message is posted per batch item,
independently of the invocation outcomes. -/
theorem invocationsStarted_blocks (l : List (Nat × PromptItem)) (total : Nat)
    (outcome : Nat → Except Unit Bool) :
    invocationsStarted
        ((l.map (fun p =>
          [QueueMsg.progress (p.1 + 1) total p.2.title] ++
          (match outcome p.1 with
           | .ok true => []
           | .ok false => [QueueMsg.errorMsg (p.1 + 1)]
           | .error _ => [QueueMsg.errorMsg (p.1 + 1)]))).flatten ++
        [QueueMsg.complete total]) = l.length := by
  induction l with
  | nil => simp [invocationsStarted]
  | cons p t ih =>
    simp only [List.map_cons, List.flatten_cons, List.cons_append, List.append_assoc]
    rcases outcome p.1 with e | b
    · simpa [invocationsStarted] using ih
    · cases b <;> simpa [invocationsStarted] using ih

/-- Claim C9 (the code is the defect): the batch loop observes no stop
signal.  Pressing stop only toggles widget state and changes nothing the
loop reads — the message trace is identical — and the loop always starts an
invocation for every queued prompt (one progress message each), so an
invocation after the stop request is still started. -/
theorem c9_stop_signal_ignored :
    (∀ (st : GuiState) (outcome : Nat → Except Unit Bool),
      run_comfyui_execution (stop_comfyui_execution st) outcome =
        run_comfyui_execution st outcome) ∧
    (∀ (st : GuiState) (outcome : Nat → Except Unit Bool),
      invocationsStarted (run_comfyui_execution st outcome) =
        st.generatedPrompts.length) := by
  constructor
  · intro st outcome
    rfl
  · intro st outcome
    simpa [run_comfyui_execution] using
      invocationsStarted_blocks st.generatedPrompts.enum
        st.generatedPrompts.length outcome

/-- A config store holding a malformed mapping file for script `"scriptA"`. -/
def malformedStore : ConfigStore :=
  fun n => if n = "scriptA" then some .malformed else Option.none

/-- A config store holding, for script `"scriptB"`, a well-formed mapping
file whose `main_prompt` field is absent. -/
def noMainStore : ConfigStore :=
  fun n =>
    if n = "scriptB" then
      some (.valid ⟨Option.none, some "text5", Option.none, Option.none,
        Option.none, Option.none⟩)
    else Option.none

/-- Counterexample to claim C10 as stated: the hard-coded `text4`/`text5`
fallback scheme is not used only when no mapping file exists — it is also
used when the file exists but is malformed, because loading then returns
"not found" as well. -/
theorem c10_counterexample :
    malformedStore "scriptA" ≠ Option.none ∧
    get_execution_args malformedStore "scriptA" "P" "" [] =
      [("text4", PyVal.str "P"), ("text5", PyVal.str "")] := by
  decide

/-- Claim C10 (amended): when no mapping can be loaded (no mapping file, or a
malformed one), `getExecutionArgs` returns the hard-coded fallback scheme
(`text4` for the prompt, `text5` for the negative prompt, extra arguments
verbatim); when a persisted mapping loads but its `mainPrompt` field is
unset, the returned bundle contains no entry for the prompt text at all —
the result is independent of the `promptText` argument. -/
theorem c10_fallback_and_prompt_drop (store : ConfigStore) (name : String)
    (p p' neg : String) (kw : List (String × PyVal)) :
    (load_mapping store name = Option.none →
      get_execution_args store name p neg kw =
        kw.foldl (fun d q => dictInsert q.1 q.2 d)
          [("text4", PyVal.str p), ("text5", PyVal.str neg)]) ∧
    (∀ d : MappingFileData, store name = some (.valid d) →
      d.main_prompt = Option.none →
      get_execution_args store name p neg kw =
        get_execution_args store name p' neg kw) := by
  constructor
  · intro h
    simp [get_execution_args, h]
  · intro d hd hmain
    have hl : load_mapping store name =
        some ⟨d.main_prompt, d.negative_prompt, d.width, d.height, d.steps, d.seed⟩ := by
      simp [load_mapping, hd]
    simp [get_execution_args, hl, hmain]

/-- Witness for C10 (amended): the fallback clause at the malformed store and
the prompt-drop clause at the store lacking a main-prompt mapping. -/
theorem c10_witness :
    get_execution_args malformedStore "scriptA" "P" "" [] =
      [("text4", PyVal.str "P"), ("text5", PyVal.str "")] ∧
    get_execution_args noMainStore "scriptB" "P" "n" [] =
      get_execution_args noMainStore "scriptB" "Q" "n" [] :=
  ⟨(c10_fallback_and_prompt_drop malformedStore "scriptA" "P" "P" "" []).1 (by decide),
   (c10_fallback_and_prompt_drop noMainStore "scriptB" "P" "Q" "n" []).2
     ⟨Option.none, some "text5", Option.none, Option.none, Option.none, Option.none⟩
     (by decide) rfl⟩

/-- The concrete two-declaration source of claim C3: `--text4` with a
120-character string default and help text "CLIP Text Encode (Positive
Prompt)", and `--text5` with default `""`. -/
def c3Source : String :=
  "parser.add_argument(\"--text4\", default=\"a neon synthwave city at sunset with glowing grids, chrome towers, retro cars palm trees, magenta skies and bright stars\", help=\"CLIP Text Encode (Positive Prompt)\")\nparser.add_argument(\"--text5\", default=\"\")\n"

set_option maxRecDepth 100000 in
/-- Claim C3: analyzing the two-declaration source with `--text4` (120-char
default, help "CLIP Text Encode (Positive Prompt)") and `--text5` (default
`""`) yields exactly those two parameters with the stated defaults, and a
mapping with mainPrompt = "text4" and negativePrompt = "text5". -/
theorem c3_concrete_two_declaration_scenario :
    ((analyze_content c3Source).1.map
        (fun a => (a.dest, a.help_text,
          match a.default with | .str v => v.length | _ => 0))) =
      [("text4", "CLIP Text Encode (Positive Prompt)", 120), ("text5", "", 0)] ∧
    (analyze_content c3Source).2.main_prompt = some "text4" ∧
    (analyze_content c3Source).2.negative_prompt = some "text5" := by
  decide

/-- The declaration of claim C7's failing input: a default value that spans
multiple lines inside a triple-quoted string and itself contains
parentheses. -/
def c7Source : String :=
  "parser.add_argument(\"--text9\", default=\"\"\"line one (a)\nline two\"\"\", help=\"x\")\n"

set_option maxRecDepth 100000 in
/-- Claim C7, evaluated at the failing input: the parenthesis-depth scan does
isolate the declaration correctly (the flag name and help text round-trip),
but re-extracting the default from the isolated call text yields the empty
string instead of the declared multiline value "line one (a)\nline two",
because the first alternative of the default-value pattern matches the first
two characters of the triple-quote opener, so the triple-quoted alternatives
never apply. -/
theorem c7_multiline_default_lost :
    parse_arguments c7Source.toList =
      [⟨"--text9", "text9", PyVal.str "", "x", "str", 5⟩] := by
  decide

/-- The claim's long-default condition: a string default longer than 50. -/
def isLongStrDefault (d : PyVal) : Bool :=
  match d with
  | .str v => decide (v.length > 50)
  | _ => false

/-- The claim's empty-default condition: an empty-string default. -/
def isEmptyStrDefault (d : PyVal) : Bool :=
  match d with
  | .str v => decide (v.length = 0)
  | _ => false

/-- The name block adds exactly the sum of its four increments. -/
theorem name_score_block_eq (dest : String) (score : Nat) :
    name_score_block dest score =
      score + ((if strContainsS (lowerS dest) "text" then 4 else 0) +
        (if strContainsS (lowerS dest) "prompt" then 5 else 0) +
        (if strContainsS (lowerS dest) "positive" then 3 else 0) +
        (if strContainsS (lowerS dest) "negative" then 2 else 0)) := by
  simp only [name_score_block]
  split_ifs <;> omega

/-- The help block adds exactly the sum of its four increments: an empty
help text contains none of the phrases, so the truthiness guard is
equivalent to the four phrase tests alone. -/
theorem help_score_block_eq (help_text : String) (score : Nat) :
    help_score_block help_text score =
      score + ((if strContainsS (lowerS help_text) "clip text encode" then 3 else 0) +
        (if strContainsS (lowerS help_text) "positive prompt" then 4 else 0) +
        (if strContainsS (lowerS help_text) "negative prompt" then 3 else 0) +
        (if strContainsS (lowerS help_text) "prompt" then 2 else 0)) := by
  by_cases h : help_text = ""
  · have e1 : strContainsS (lowerS "") "clip text encode" = false := by decide
    have e2 : strContainsS (lowerS "") "positive prompt" = false := by decide
    have e3 : strContainsS (lowerS "") "negative prompt" = false := by decide
    have e4 : strContainsS (lowerS "") "prompt" = false := by decide
    subst h
    rw [help_score_block, if_pos rfl, e1, e2, e3, e4]
    simp
  · simp only [help_score_block, if_neg h]
    split_ifs <;> omega

/-- The default block adds exactly the sum of the two (mutually exclusive)
default-value increments. -/
theorem default_score_block_eq (default : PyVal) (score : Nat) :
    default_score_block default score =
      score + ((if isLongStrDefault default then 3 else 0) +
        (if isEmptyStrDefault default then 1 else 0)) := by
  cases default <;>
    simp only [default_score_block, isLongStrDefault, isEmptyStrDefault,
      decide_eq_true_eq, Bool.false_eq_true, if_false, if_true]
  all_goals
    first
    | (split_ifs <;> omega)
    | omega

/-- Claim C6: for every parameter, the prompt score equals the plain sum of
the stated increments — in tenths, +4 for "text", +5 for "prompt", +3 for
"positive", +2 for "negative" in the name (stacking); +3/+4/+3/+2 for the
four help-text phrases; +3 for a string default longer than 50 characters
and +1 for an empty-string default — capped at 1.0 (10 tenths). -/
theorem c6_score_additive (dest : String) (default : PyVal) (help_text : String) :
    score_argument dest default help_text =
      min ((if strContainsS (lowerS dest) "text" then 4 else 0) +
           (if strContainsS (lowerS dest) "prompt" then 5 else 0) +
           (if strContainsS (lowerS dest) "positive" then 3 else 0) +
           (if strContainsS (lowerS dest) "negative" then 2 else 0) +
           (if strContainsS (lowerS help_text) "clip text encode" then 3 else 0) +
           (if strContainsS (lowerS help_text) "positive prompt" then 4 else 0) +
           (if strContainsS (lowerS help_text) "negative prompt" then 3 else 0) +
           (if strContainsS (lowerS help_text) "prompt" then 2 else 0) +
           (if isLongStrDefault default then 3 else 0) +
           (if isEmptyStrDefault default then 1 else 0)) 10 := by
  rw [score_argument, default_score_block_eq, help_score_block_eq,
    name_score_block_eq]
  congr 1
  omega

/-- `'width' in dest` together with the int-or-float type check (the first
condition of the numeric `if/elif` chain). -/
def widthMatch (a : ArgumentInfo) : Bool :=
  strContainsS (lowerS a.dest) "width" && numTypeCond a

/-- The `elif` branch actually assigning `height`: reached only when the
width branch did not fire. -/
def heightMatch (a : ArgumentInfo) : Bool :=
  !widthMatch a && (strContainsS (lowerS a.dest) "height" && numTypeCond a)

/-- The `elif` branch actually assigning `steps` (integer type only). -/
def stepsMatch (a : ArgumentInfo) : Bool :=
  !widthMatch a && !(strContainsS (lowerS a.dest) "height" && numTypeCond a) &&
    (strContainsS (lowerS a.dest) "steps" && (a.arg_type = "int"))

/-- The `elif` branch actually assigning `seed` (integer type only). -/
def seedMatch (a : ArgumentInfo) : Bool :=
  !widthMatch a && !(strContainsS (lowerS a.dest) "height" && numTypeCond a) &&
    !(strContainsS (lowerS a.dest) "steps" && (a.arg_type = "int")) &&
    (strContainsS (lowerS a.dest) "seed" && (a.arg_type = "int"))

/-- The dest of the last element of `l` satisfying `p`, if any (in an
assign-in-a-loop, the last write wins). -/
def lastMatch (p : ArgumentInfo → Bool) (l : List ArgumentInfo) : Option String :=
  l.foldl (fun acc a => if p a then some a.dest else acc) Option.none

/-- Folding the last-write accumulator from an arbitrary start. -/
theorem lastMatch_foldl (p : ArgumentInfo → Bool) (l : List ArgumentInfo)
    (acc : Option String) :
    l.foldl (fun acc a => if p a then some a.dest else acc) acc =
      (lastMatch p l).or acc := by
  induction l generalizing acc with
  | nil => simp [lastMatch]
  | cons a t ih =>
    simp only [lastMatch, List.foldl_cons]
    rw [ih (if p a = true then some a.dest else acc),
      ih (if p a = true then some a.dest else Option.none)]
    cases hl : lastMatch p t <;> cases hp : p a <;> simp [Option.or]

/-- A projection not written by a fold step is preserved by the fold. -/
theorem foldl_preserves {α : Type} (g : PromptMapping → α)
    (f : PromptMapping → ArgumentInfo → PromptMapping)
    (hf : ∀ m a, g (f m a) = g m) (l : List ArgumentInfo) (m : PromptMapping) :
    g (l.foldl f m) = g m := by
  induction l generalizing m with
  | nil => rfl
  | cons a t ih => rw [List.foldl_cons, ih, hf]

/-- A field updated by a fold step exactly when a test fires, with the
matching dest, ends as the last matching dest (or its initial value). -/
theorem foldl_lastMatch (g : PromptMapping → Option String)
    (f : PromptMapping → ArgumentInfo → PromptMapping)
    (p : ArgumentInfo → Bool)
    (hf : ∀ m a, g (f m a) = if p a then some a.dest else g m)
    (l : List ArgumentInfo) (m : PromptMapping) :
    g (l.foldl f m) = (lastMatch p l).or (g m) := by
  induction l generalizing m with
  | nil => simp [lastMatch]
  | cons a t ih =>
    rw [List.foldl_cons, ih, hf]
    have h2 : lastMatch p (a :: t) =
        (lastMatch p t).or (if p a then some a.dest else Option.none) := by
      simp only [lastMatch, List.foldl_cons]
      rw [lastMatch_foldl]
      rfl
    rw [h2]
    cases hl : lastMatch p t <;> cases hp : p a <;> simp [Option.or]

/-- The numeric step writes `width` exactly on a width match. -/
theorem numericStep_width (m : PromptMapping) (a : ArgumentInfo) :
    (numericStep m a).width = if widthMatch a then some a.dest else m.width := by
  unfold numericStep widthMatch
  cases h1 : (strContainsS (lowerS a.dest) "width" && numTypeCond a) <;>
    cases h2 : (strContainsS (lowerS a.dest) "height" && numTypeCond a) <;>
    cases h3 : (strContainsS (lowerS a.dest) "steps" && (a.arg_type = "int")) <;>
    cases h4 : (strContainsS (lowerS a.dest) "seed" && (a.arg_type = "int")) <;>
    simp [h1, h2, h3, h4]

/-- The numeric step writes `height` exactly on a height match. -/
theorem numericStep_height (m : PromptMapping) (a : ArgumentInfo) :
    (numericStep m a).height = if heightMatch a then some a.dest else m.height := by
  unfold numericStep heightMatch widthMatch
  cases h1 : (strContainsS (lowerS a.dest) "width" && numTypeCond a) <;>
    cases h2 : (strContainsS (lowerS a.dest) "height" && numTypeCond a) <;>
    cases h3 : (strContainsS (lowerS a.dest) "steps" && (a.arg_type = "int")) <;>
    cases h4 : (strContainsS (lowerS a.dest) "seed" && (a.arg_type = "int")) <;>
    simp [h1, h2, h3, h4]

/-- The numeric step writes `steps` exactly on a steps match. -/
theorem numericStep_steps (m : PromptMapping) (a : ArgumentInfo) :
    (numericStep m a).steps = if stepsMatch a then some a.dest else m.steps := by
  unfold numericStep stepsMatch widthMatch
  cases h1 : (strContainsS (lowerS a.dest) "width" && numTypeCond a) <;>
    cases h2 : (strContainsS (lowerS a.dest) "height" && numTypeCond a) <;>
    cases h3 : (strContainsS (lowerS a.dest) "steps" && (a.arg_type = "int")) <;>
    cases h4 : (strContainsS (lowerS a.dest) "seed" && (a.arg_type = "int")) <;>
    simp [h1, h2, h3, h4]

/-- The numeric step writes `seed` exactly on a seed match. -/
theorem numericStep_seed (m : PromptMapping) (a : ArgumentInfo) :
    (numericStep m a).seed = if seedMatch a then some a.dest else m.seed := by
  unfold numericStep seedMatch widthMatch
  cases h1 : (strContainsS (lowerS a.dest) "width" && numTypeCond a) <;>
    cases h2 : (strContainsS (lowerS a.dest) "height" && numTypeCond a) <;>
    cases h3 : (strContainsS (lowerS a.dest) "steps" && (a.arg_type = "int")) <;>
    cases h4 : (strContainsS (lowerS a.dest) "seed" && (a.arg_type = "int")) <;>
    simp [h1, h2, h3, h4]

/-- The explicit pass touches only the two prompt fields. -/
theorem explicitStep_numeric (m : PromptMapping) (a : ArgumentInfo) :
    (explicitStep m a).width = m.width ∧ (explicitStep m a).height = m.height ∧
    (explicitStep m a).steps = m.steps ∧ (explicitStep m a).seed = m.seed := by
  simp only [explicitStep]
  split_ifs <;> simp

/-- The score pass touches only `main_prompt`. -/
theorem scorePass_fields (pa : List ArgumentInfo) (m : PromptMapping) :
    (scorePass pa m).negative_prompt = m.negative_prompt ∧
    (scorePass pa m).width = m.width ∧ (scorePass pa m).height = m.height ∧
    (scorePass pa m).steps = m.steps ∧ (scorePass pa m).seed = m.seed := by
  simp only [scorePass]
  split_ifs
  · cases pa.find? scorePassCond <;> simp
  · simp

/-- The negative pass touches only `negative_prompt`. -/
theorem negPass_fields (pa : List ArgumentInfo) (m : PromptMapping) :
    (negPass pa m).main_prompt = m.main_prompt ∧
    (negPass pa m).width = m.width ∧ (negPass pa m).height = m.height ∧
    (negPass pa m).steps = m.steps ∧ (negPass pa m).seed = m.seed := by
  simp only [negPass]
  split_ifs
  · cases pa.find? (negPassCond m.main_prompt) <;> simp
  · simp

/-- The numeric pass touches neither prompt field. -/
theorem numericPass_prompts (l : List ArgumentInfo) (m : PromptMapping) :
    (numericPass l m).main_prompt = m.main_prompt ∧
    (numericPass l m).negative_prompt = m.negative_prompt := by
  constructor
  · refine foldl_preserves (fun m => m.main_prompt) numericStep ?_ l m
    intro m a
    simp only [numericStep]
    split_ifs <;> simp
  · refine foldl_preserves (fun m => m.negative_prompt) numericStep ?_ l m
    intro m a
    simp only [numericStep]
    split_ifs <;> simp

/-- Claim C5 (amended): each numeric mapping field is determined solely by
the final loop, independently of the prompt passes — it names the last
parameter in declaration order whose `elif` branch for that keyword fires:
width and height require an int-or-float inferred type, steps and seed
require int, and a parameter is considered only for the first keyword of
(width, height, steps, seed) whose branch condition it satisfies. -/
theorem c5_numeric_assignment (args : List ArgumentInfo) :
    (suggest_prompt_mapping args).width = lastMatch widthMatch args ∧
    (suggest_prompt_mapping args).height = lastMatch heightMatch args ∧
    (suggest_prompt_mapping args).steps = lastMatch stepsMatch args ∧
    (suggest_prompt_mapping args).seed = lastMatch seedMatch args := by
  unfold suggest_prompt_mapping numericPass
  set pa := sortByScoreDesc (args.filter isPromptArg) with hpa
  set m3 := negPass pa (scorePass pa (explicitPass pa emptyMapping)) with hm3
  have hw : m3.width = Option.none := by
    rw [hm3, (negPass_fields _ _).2.1, (scorePass_fields _ _).2.1]
    unfold explicitPass
    rw [foldl_preserves (fun m => m.width) explicitStep
      (fun m a => (explicitStep_numeric m a).1)]
    rfl
  have hh : m3.height = Option.none := by
    rw [hm3, (negPass_fields _ _).2.2.1, (scorePass_fields _ _).2.2.1]
    unfold explicitPass
    rw [foldl_preserves (fun m => m.height) explicitStep
      (fun m a => (explicitStep_numeric m a).2.1)]
    rfl
  have hs : m3.steps = Option.none := by
    rw [hm3, (negPass_fields _ _).2.2.2.1, (scorePass_fields _ _).2.2.2.1]
    unfold explicitPass
    rw [foldl_preserves (fun m => m.steps) explicitStep
      (fun m a => (explicitStep_numeric m a).2.2.1)]
    rfl
  have hse : m3.seed = Option.none := by
    rw [hm3, (negPass_fields _ _).2.2.2.2, (scorePass_fields _ _).2.2.2.2]
    unfold explicitPass
    rw [foldl_preserves (fun m => m.seed) explicitStep
      (fun m a => (explicitStep_numeric m a).2.2.2)]
    rfl
  refine ⟨?_, ?_, ?_, ?_⟩
  · rw [foldl_lastMatch (fun m => m.width) numericStep widthMatch
      numericStep_width args m3, hw]
    cases lastMatch widthMatch args <;> simp [Option.or]
  · rw [foldl_lastMatch (fun m => m.height) numericStep heightMatch
      numericStep_height args m3, hh]
    cases lastMatch heightMatch args <;> simp [Option.or]
  · rw [foldl_lastMatch (fun m => m.steps) numericStep stepsMatch
      numericStep_steps args m3, hs]
    cases lastMatch stepsMatch args <;> simp [Option.or]
  · rw [foldl_lastMatch (fun m => m.seed) numericStep seedMatch
      numericStep_seed args m3, hse]
    cases lastMatch seedMatch args <;> simp [Option.or]

/-- A parameter named `steps` with a float default and float inferred type. -/
def floatStepsArg : ArgumentInfo :=
  ⟨"--steps", "steps", PyVal.float 2.5, "", "float", 0⟩

/-- Counterexample to claim C5 as stated: a parameter whose name contains
"steps" and whose inferred type is numeric (float) is not assigned to the
`steps` mapping field — the source requires type int for steps (and seed). -/
theorem c5_counterexample :
    strContainsS (lowerS floatStepsArg.dest) "steps" = true ∧
    floatStepsArg.arg_type = "float" ∧
    (suggest_prompt_mapping [floatStepsArg]).steps = Option.none := by
  refine ⟨by decide, rfl, ?_⟩
  rw [(c5_numeric_assignment [floatStepsArg]).2.2.1]
  decide

/-- Insertion preserves membership. -/
theorem mem_insertDesc {x a : ArgumentInfo} {l : List ArgumentInfo} :
    x ∈ insertDesc a l ↔ x = a ∨ x ∈ l := by
  induction l with
  | nil => simp [insertDesc]
  | cons b t ih =>
    unfold insertDesc
    split_ifs <;> simp [ih]
    tauto

/-- The stable descending sort preserves membership. -/
theorem mem_sortByScoreDesc {x : ArgumentInfo} {l : List ArgumentInfo} :
    x ∈ sortByScoreDesc l ↔ x ∈ l := by
  induction l with
  | nil => simp [sortByScoreDesc]
  | cons a t ih =>
    simp [sortByScoreDesc, mem_insertDesc, ih]

/-- A main prompt set after the explicit pass was either already set or was
written by an argument satisfying the explicit main-prompt test. -/
theorem explicitPass_main_some (l : List ArgumentInfo) (m : PromptMapping)
    (d : String) (h : (explicitPass l m).main_prompt = some d) :
    m.main_prompt = some d ∨ ∃ a ∈ l, explicitMainCond a = true ∧ a.dest = d := by
  induction l generalizing m with
  | nil => exact Or.inl h
  | cons a t ih =>
    have h' : (explicitPass t (explicitStep m a)).main_prompt = some d := h
    rcases ih (explicitStep m a) h' with hm | ⟨b, hb, hc, hd⟩
    · unfold explicitStep at hm
      split_ifs at hm with e1 e2
      · refine Or.inr ⟨a, List.mem_cons_self a t, e1, ?_⟩
        simpa using hm
      · exact Or.inl hm
      · exact Or.inl hm
    · exact Or.inr ⟨b, List.mem_cons_of_mem a hb, hc, hd⟩

/-- A negative prompt set after the explicit pass was either already set or
was written by an argument satisfying the explicit negative-prompt test. -/
theorem explicitPass_neg_some (l : List ArgumentInfo) (m : PromptMapping)
    (d : String) (h : (explicitPass l m).negative_prompt = some d) :
    m.negative_prompt = some d ∨ ∃ a ∈ l, explicitNegCond a = true ∧ a.dest = d := by
  induction l generalizing m with
  | nil => exact Or.inl h
  | cons a t ih =>
    have h' : (explicitPass t (explicitStep m a)).negative_prompt = some d := h
    rcases ih (explicitStep m a) h' with hm | ⟨b, hb, hc, hd⟩
    · unfold explicitStep at hm
      split_ifs at hm with e1 e2
      · exact Or.inl hm
      · refine Or.inr ⟨a, List.mem_cons_self a t, e2, ?_⟩
        simpa using hm
      · exact Or.inl hm
    · exact Or.inr ⟨b, List.mem_cons_of_mem a hb, hc, hd⟩

/-- A main prompt set after the score pass was either already set or was
written by a candidate passing the score test. -/
theorem scorePass_main_some (pa : List ArgumentInfo) (m : PromptMapping)
    (d : String) (h : (scorePass pa m).main_prompt = some d) :
    m.main_prompt = some d ∨ ∃ a ∈ pa, scorePassCond a = true ∧ a.dest = d := by
  unfold scorePass at h
  split_ifs at h with hc
  · cases hf : pa.find? scorePassCond with
    | none =>
      rw [hf] at h
      exact Or.inl h
    | some a =>
      rw [hf] at h
      simp only [PromptMapping.main_prompt] at h
      exact Or.inr ⟨a, List.mem_of_find?_eq_some hf, List.find?_some hf, by simpa using h⟩
  · exact Or.inl h

/-- A negative prompt set after the negative pass was either already set or
was written by a candidate passing the negative test. -/
theorem negPass_neg_some (pa : List ArgumentInfo) (m : PromptMapping)
    (d : String) (h : (negPass pa m).negative_prompt = some d) :
    m.negative_prompt = some d ∨
      ∃ a ∈ pa, negPassCond m.main_prompt a = true ∧ a.dest = d := by
  unfold negPass at h
  split_ifs at h with hc
  · cases hf : pa.find? (negPassCond m.main_prompt) with
    | none =>
      rw [hf] at h
      exact Or.inl h
    | some a =>
      rw [hf] at h
      simp only [PromptMapping.negative_prompt] at h
      exact Or.inr ⟨a, List.mem_of_find?_eq_some hf, List.find?_some hf, by simpa using h⟩
  · exact Or.inl h

/-- A candidate passing the score test has a string default. -/
theorem scorePassCond_str {a : ArgumentInfo} (h : scorePassCond a = true) :
    ∃ v, a.default = PyVal.str v := by
  cases hd : a.default <;> simp [scorePassCond, hd] at h ⊢

/-- A candidate passing the negative test has a dest different from the
chosen main prompt. -/
theorem negPassCond_ne {mainP : Option String} {a : ArgumentInfo}
    (h : negPassCond mainP a = true) : some a.dest ≠ mainP := by
  simp only [negPassCond, Bool.and_eq_true, decide_eq_true_eq] at h
  exact h.1

/-- Claim C4 (amended): every mapping derived from a well-typed parameter
list (inferred type matching the default, as the parser produces) satisfies:
a set `mainPrompt` names a parameter that either matched the exact-name pass
or has string inferred type; and when `mainPrompt` and `negativePrompt` are
both set and equal, the shared parameter matched the exact negative-name
pass (so distinctness can only fail for a parameter whose name contains
`negative_prompt` or `neg_prompt` that the score pass also selects as main
prompt). -/
theorem c4_mapping_invariants (args : List ArgumentInfo)
    (hwf : ∀ a ∈ args, a.arg_type = infer_arg_type a.default) :
    (∀ d, (suggest_prompt_mapping args).main_prompt = some d →
      ∃ a ∈ args, a.dest = d ∧ (explicitMainCond a = true ∨ a.arg_type = "str")) ∧
    (∀ d, (suggest_prompt_mapping args).main_prompt = some d →
      (suggest_prompt_mapping args).negative_prompt = some d →
      ∃ a ∈ args, a.dest = d ∧ explicitNegCond a = true) := by
  have hmem : ∀ a ∈ sortByScoreDesc (args.filter isPromptArg), a ∈ args := by
    intro a ha
    rw [mem_sortByScoreDesc, List.mem_filter] at ha
    exact ha.1
  have hdef : suggest_prompt_mapping args =
      numericPass args
        (negPass (sortByScoreDesc (args.filter isPromptArg))
          (scorePass (sortByScoreDesc (args.filter isPromptArg))
            (explicitPass (sortByScoreDesc (args.filter isPromptArg)) emptyMapping))) :=
    rfl
  constructor
  · intro d hd
    rw [hdef, (numericPass_prompts _ _).1, (negPass_fields _ _).1] at hd
    rcases scorePass_main_some _ _ _ hd with hm | ⟨a, ha, hc, hdest⟩
    · rcases explicitPass_main_some _ _ _ hm with he | ⟨a, ha, hc, hdest⟩
      · simp [emptyMapping] at he
      · exact ⟨a, hmem a ha, hdest, Or.inl hc⟩
    · obtain ⟨v, hv⟩ := scorePassCond_str hc
      refine ⟨a, hmem a ha, hdest, Or.inr ?_⟩
      rw [hwf a (hmem a ha), hv]
      rfl
  · intro d hd hn
    rw [hdef, (numericPass_prompts _ _).1, (negPass_fields _ _).1] at hd
    rw [hdef, (numericPass_prompts _ _).2] at hn
    rcases negPass_neg_some _ _ _ hn with hm | ⟨a, ha, hc, hdest⟩
    · rw [(scorePass_fields _ _).1] at hm
      rcases explicitPass_neg_some _ _ _ hm with he | ⟨a, ha, hc, hdest⟩
      · simp [emptyMapping] at he
      · exact ⟨a, hmem a ha, hdest, hc⟩
    · exfalso
      apply negPassCond_ne hc
      rw [hdest, hd]

/-- A parameter named `negative_prompt` with a 31-character string default:
the explicit pass assigns it as the negative prompt, and the score pass then
also selects it as the main prompt. -/
def negPromptArg : ArgumentInfo :=
  ⟨"--negative_prompt", "negative_prompt",
    PyVal.str "a dark gloomy horror photograph", "", "str",
    score_argument "negative_prompt" (PyVal.str "a dark gloomy horror photograph") ""⟩

/-- Counterexample to claim C4 as stated: deriving a mapping from the single
parameter `negative_prompt` (string default of 31 characters) sets both
`mainPrompt` and `negativePrompt` to the same name, violating the claimed
distinctness of the two fields. -/
theorem c4_counterexample :
    (suggest_prompt_mapping [negPromptArg]).main_prompt = some "negative_prompt" ∧
    (suggest_prompt_mapping [negPromptArg]).negative_prompt = some "negative_prompt" := by
  decide

/-- Witness for C4 (amended) at the concrete one-parameter list. -/
theorem c4_witness :
    ∃ a ∈ [negPromptArg], a.dest = "negative_prompt" ∧
      (explicitMainCond a = true ∨ a.arg_type = "str") :=
  (c4_mapping_invariants [negPromptArg] (by decide)).1 "negative_prompt" (by decide)
